import Mathlib

/-!
Shallow embedding of `src/db_utils.py` (TABCELL_IA): a small ledger of
financial transactions backed by SQLite, plus a regex-based command
extractor `tentar_extrair_comando`.

Modelling conventions:
* SQLite REAL amounts and Python floats are modelled as exact rationals
  (`ℚ`): the spec treats amounts as decimal numbers and every claim is
  about decimal values, not binary rounding.
* Raising a Python exception is modelled by `PyResult.exn`; returning a
  value by `PyResult.ok`.  The parser's no-match result (`None`) is
  `PyResult.ok none`.
* Whitespace (`\s`, `str.strip`) is modelled over the ASCII whitespace
  characters, which is what every input of interest contains.
* The regex `PADRAO` is embedded as a deterministic matcher.  At every
  point where the Python regex engine could backtrack, the character
  class of the following token is disjoint from the preceding greedy
  token (digits/`.`/`,` vs `\s`, letters vs `\s`, the one- or two-digit
  date fields vs the slash-dash separator class), so maximal-munch
  matching is equivalent; the
  lazy `(.+?)` group is modelled by explicit shortest-prefix search.
-/

/-- Python `\s` / `str.strip` whitespace (ASCII range). -/
def pyIsSpace (c : Char) : Bool :=
  c = ' ' || c = '\t' || c = '\n' || c = '\r' || c = '\x0b' || c = '\x0c'

/-- Python `str.strip()`. -/
def pyStrip (s : String) : String :=
  String.mk (((s.toList.dropWhile pyIsSpace).reverse.dropWhile pyIsSpace).reverse)

/-- Case-insensitive character comparison (re.I). -/
def lowEq (a b : Char) : Bool := a.toLower = b.toLower

/-- Match a literal (case-insensitively), returning the remaining input. -/
def matchLit : List Char → List Char → Option (List Char)
  | [], rest => some rest
  | _ :: _, [] => none
  | p :: ps, c :: cs => if lowEq c p then matchLit ps cs else none

/-- `\s+` (maximal munch; every following token in `PADRAO` rejects
whitespace, see header comment). -/
def ws1 : List Char → Option (List Char)
  | c :: cs => if pyIsSpace c then some (cs.dropWhile pyIsSpace) else none
  | [] => none

/-- `\s*`. -/
def wsStar (l : List Char) : List Char := l.dropWhile pyIsSpace

/-- The character class `[\d\.,]`. -/
def numChar (c : Char) : Bool := c.isDigit || c = '.' || c = ','

/-- `([\d\.,]+)` greedy: the following `\s+` rejects every class member,
so maximal munch is exact. -/
def matchNum (l : List Char) : Option (List Char × List Char) :=
  let g := l.takeWhile numChar
  if g.isEmpty then none else some (g, l.drop g.length)

/-- `(?:r\$\s*)?`: if the branch consumes input, the alternative without
it cannot match (`r` is not in `[\d\.,]`), so no backtracking is needed. -/
def matchCur (l : List Char) : List Char :=
  match l with
  | c :: d :: rest => if lowEq c 'r' && d = '$' then wsStar rest else l
  | _ => l

/-- `(?:\s+no\s+banco\s+de\s+dados)?`: when the branch matches, the
variant without it immediately fails on `\s+…[\d\.,]`, so greedy
commitment is exact. -/
def matchOptBanco (l : List Char) : List Char :=
  match (do
    let r1 ← ws1 l
    let r2 ← matchLit "no".toList r1
    let r3 ← ws1 r2
    let r4 ← matchLit "banco".toList r3
    let r5 ← ws1 r4
    let r6 ← matchLit "de".toList r5
    let r7 ← ws1 r6
    matchLit "dados".toList r7) with
  | some r => r
  | none => l

/-- `(faturamento|despesa)`: returns the matched slice of the input
(original case, as `m.group(2)` would) and the rest. -/
def matchTipo (l : List Char) : Option (List Char × List Char) :=
  match matchLit "faturamento".toList l with
  | some r => some (l.take 11, r)
  | none =>
    match matchLit "despesa".toList l with
    | some r => some (l.take 7, r)
    | none => none

/-- `s?` after the kind keyword: the following `\s+` rejects `s`, so
greedy consumption is exact. -/
def matchOptS (l : List Char) : List Char :=
  match l with
  | c :: rest => if lowEq c 's' then rest else l
  | [] => l

/-- `\d{1,2}`: take two digits if available, else one.  The following
separator token (slash or dash) rejects digits, so the engine's
2-then-1 backtracking never changes the outcome. -/
def matchD12 (l : List Char) : Option (List Char × List Char) :=
  match l with
  | a :: b :: rest =>
    if a.isDigit then
      if b.isDigit then some ([a, b], rest) else some ([a], b :: rest)
    else none
  | [a] => if a.isDigit then some ([a], []) else none
  | [] => none

/-- The date separator class: slash or dash. -/
def isSep (c : Char) : Bool := c = '/' || c = '-'

/-- The date group: one or two digits, a separator, one or two digits,
a separator, four digits; returns the captured slice and the rest. -/
def matchDate (l : List Char) : Option (List Char × List Char) := do
  let (d1, r1) ← matchD12 l
  match r1 with
  | s1 :: r2 =>
    if isSep s1 then do
      let (d2, r3) ← matchD12 r2
      match r3 with
      | s2 :: y1 :: y2 :: y3 :: y4 :: r4 =>
        if isSep s2 && y1.isDigit && y2.isDigit && y3.isDigit && y4.isDigit then
          some (d1 ++ [s1] ++ d2 ++ [s2] ++ [y1, y2, y3, y4], r4)
        else none
      | _ => none
    else none
  | [] => none

/-- `[\s\.]` — the filler allowed after the description / at the end. -/
def tailFill (c : Char) : Bool := pyIsSpace c || c = '.'

/-- Lazy `(.+?)` followed by `[\s\.]*$`: the shortest non-empty prefix
not containing a newline whose complement is all filler. -/
def lazyDesc : List Char → Option (List Char)
  | [] => none
  | c :: cs =>
    if c = '\n' then none
    else if cs.all tailFill then some [c]
    else
      match lazyDesc cs with
      | some d => some (c :: d)
      | none => none

/-- `(?:\s+com\s+descricao\s+(.+?))?[\s\.]*$`: returns `some g4` on a
match (`g4 = none` when the optional clause is absent), `none` when the
tail fails.  The input is pre-stripped, so it never ends in whitespace
and the greedy `\s+` before the lazy group is exact. -/
def matchTail (l : List Char) : Option (Option (List Char)) :=
  match (do
    let r1 ← ws1 l
    let r2 ← matchLit "com".toList r1
    let r3 ← ws1 r2
    let r4 ← matchLit "descricao".toList r3
    let r5 ← ws1 r4
    lazyDesc r5) with
  | some d => some (some d)
  | none => if l.all tailFill then some none else none

/-- The four capture groups of `PADRAO`. -/
structure Groups where
  g1 : List Char
  g2 : List Char
  g3 : List Char
  g4 : Option (List Char)
deriving DecidableEq, Repr

/-- Match `PADRAO` anchored at the start of `l` (the pattern itself ends
with `$`, so the tail runs to the end of the input). -/
def matchAt (l : List Char) : Option Groups := do
  let r1 ← matchLit "registre".toList l
  let r2 := matchOptBanco r1
  let r3 ← ws1 r2
  let r4 := matchCur r3
  let (g1, r5) ← matchNum r4
  let r6 ← ws1 r5
  let r7 ← matchLit "de".toList r6
  let r8 ← ws1 r7
  let (g2, r9) ← matchTipo r8
  let r10 := matchOptS r9
  let r11 ← ws1 r10
  let r12 ← matchLit "em".toList r11
  let r13 ← ws1 r12
  let (g3, r14) ← matchDate r13
  let g4 ← matchTail r14
  pure ⟨g1, g2, g3, g4⟩

/-- `PADRAO.search`: leftmost starting position that matches. -/
def padraoSearch : List Char → Option Groups
  | [] => none
  | c :: cs =>
    match matchAt (c :: cs) with
    | some g => some g
    | none => padraoSearch cs

/-- Digit value. -/
def digitVal (c : Char) : Nat := c.toNat - '0'.toNat

/-- Numeric value of a digit string. -/
def natOfDigits (l : List Char) : Nat := l.foldl (fun a c => a * 10 + digitVal c) 0

/-- Models Python `float()` on strings made of digits and dots (the only
shape the parser ever feeds it), as an exact rational; `none` models a
raised `ValueError`. -/
def pyFloat (l : List Char) : Option ℚ :=
  if l.any (fun c => !(c.isDigit || c = '.')) then none
  else if !l.any Char.isDigit then none
  else if 2 ≤ l.count '.' then none
  else
    let ip := l.takeWhile (fun c => c ≠ '.')
    let fp := (l.dropWhile (fun c => c ≠ '.')).drop 1
    some ((natOfDigits ip : ℚ) + (natOfDigits fp : ℚ) / (10 : ℚ) ^ fp.length)

/-- `m.group(1).replace('.', '').replace(',', '.')`. -/
def normNum (l : List Char) : List Char :=
  (l.filter (fun c => c ≠ '.')).map (fun c => if c = ',' then '.' else c)

/-- `m.group(3).replace('-', '/')`. -/
def normData (l : List Char) : List Char :=
  l.map (fun c => if c = '-' then '/' else c)

/-- Proleptic Gregorian leap year, as `datetime` uses. -/
def isLeap (y : Nat) : Bool := (y % 4 = 0 && y % 100 ≠ 0) || y % 400 = 0

/-- Days in a month, as `datetime` validates. -/
def daysInMonth (y m : Nat) : Nat :=
  if m = 2 then (if isLeap y then 29 else 28)
  else if m = 4 || m = 6 || m = 9 || m = 11 then 30
  else 31

structure Date where
  year : Nat
  month : Nat
  day : Nat
deriving DecidableEq, Repr

/-- Split a character list at every slash (the literal `/` separators of
the format `"%d/%m/%Y"`). -/
def splitSlash (l : List Char) : List (List Char) :=
  match l with
  | [] => [[]]
  | c :: cs =>
    if c = '/' then [] :: splitSlash cs
    else
      match splitSlash cs with
      | h :: t => (c :: h) :: t
      | [] => [[c]]

/-- Models `datetime.strptime(s, "%d/%m/%Y").date()`: `%d` is one or two
digits valued 1–31, `%m` one or two digits valued 1–12, `%Y` exactly
four digits, the whole string must be consumed, and the resulting
triple must be a real calendar date (`datetime` raises otherwise);
`none` models a raised `ValueError`. -/
def strptimeDMY (l : List Char) : Option Date :=
  match splitSlash l with
  | [dl, ml, yl] =>
    let d := natOfDigits dl
    let m := natOfDigits ml
    let y := natOfDigits yl
    if dl.all Char.isDigit && (dl.length = 1 || dl.length = 2) && 1 ≤ d && d ≤ 31
        && ml.all Char.isDigit && (ml.length = 1 || ml.length = 2) && 1 ≤ m && m ≤ 12
        && yl.all Char.isDigit && yl.length = 4 && 1 ≤ y
        && d ≤ daysInMonth y m
    then some ⟨y, m, d⟩
    else none
  | _ => none

/-- Zero-padded two-digit field of `date.isoformat()`. -/
def pad2 (n : Nat) : String := if n < 10 then "0" ++ toString n else toString n

/-- Zero-padded four-digit year of `date.isoformat()`. -/
def pad4 (n : Nat) : String :=
  if n < 10 then "000" ++ toString n
  else if n < 100 then "00" ++ toString n
  else if n < 1000 then "0" ++ toString n
  else toString n

/-- `date.isoformat()`. -/
def isoformat (d : Date) : String :=
  pad4 d.year ++ "-" ++ pad2 d.month ++ "-" ++ pad2 d.day

/-- The `Registro` TypedDict. -/
structure Registro where
  data : String
  tipo : String
  valor : ℚ
  descricao : Option String
deriving DecidableEq, Repr

/-- A Python exception escaping a function. -/
inductive PyExn where
  | valueError
deriving DecidableEq, Repr

/-- A Python call either returns a value or raises. -/
inductive PyResult (α : Type) where
  | ok : α → PyResult α
  | exn : PyExn → PyResult α
deriving DecidableEq, Repr

/-- `tentar_extrair_comando`: strip, search `PADRAO`, convert the amount
(`float`, may raise), convert the date (`strptime`, may raise), build
the record.  `ok none` is the no-match result. -/
def tentar_extrair_comando (txt : String) : PyResult (Option Registro) :=
  match padraoSearch (pyStrip txt).toList with
  | none => .ok none
  | some g =>
    match pyFloat (normNum g.g1) with
    | none => .exn .valueError
    | some valor =>
      match strptimeDMY (normData g.g3) with
      | none => .exn .valueError
      | some d =>
        .ok (some { data := isoformat d
                    tipo := String.mk (g.g2.map Char.toLower)
                    valor := valor
                    descricao := g.g4.map (fun l => pyStrip (String.mk l)) })

/-! ## The store

One SQLite table `transacoes (id INTEGER PRIMARY KEY AUTOINCREMENT,
data TEXT NOT NULL, tipo TEXT NOT NULL CHECK (tipo IN
('faturamento','despesa')), valor REAL NOT NULL, descricao TEXT)`.
A database state is the list of rows plus the next AUTOINCREMENT id
(AUTOINCREMENT ids are monotone and never reused, even after delete).
REAL is modelled as `ℚ`, `NULL` descriptions as `none`. -/

structure Row where
  id : Nat
  data : String
  tipo : String
  valor : ℚ
  descricao : Option String
deriving DecidableEq, Repr

structure DB where
  rows : List Row
  nextId : Nat
deriving DecidableEq, Repr

/-- A fresh database: AUTOINCREMENT starts issuing ids at 1. -/
def DB.empty : DB := ⟨[], 1⟩

/-- `inserir`: INSERT the four record fields; the id is assigned by
AUTOINCREMENT.  (The CHECK constraint on `tipo` is a hypothesis of the
theorems that need it; a violating insert would raise.) -/
def inserir (r : Registro) (db : DB) : DB :=
  { rows := db.rows ++ [⟨db.nextId, r.data, r.tipo, r.valor, r.descricao⟩]
    nextId := db.nextId + 1 }

/-- `deletar`: DELETE WHERE id = reg_id, returning `rowcount > 0`. -/
def deletar (reg_id : Nat) (db : DB) : DB × Bool :=
  ({ db with rows := db.rows.filter (fun r => r.id ≠ reg_id) },
   db.rows.any (fun r => r.id = reg_id))

/-- SQLite `date(x)`: the calendar-date portion of a stored date value
(the first ten characters of an ISO-formatted string, covering both
plain dates and date-with-time values). -/
def sqlDate (s : String) : String := String.mk (s.toList.take 10)

/-- The dynamically built WHERE conditions: a bound is added only when
the Python argument is truthy, i.e. present and non-empty. -/
def inRange (data_inicio data_fim : Option String) (r : Row) : Bool :=
  (match data_inicio with
   | some di => if di.isEmpty then true else decide (di ≤ sqlDate r.data)
   | none => true)
  &&
  (match data_fim with
   | some df => if df.isEmpty then true else decide (sqlDate r.data ≤ df)
   | none => true)

/-- Python `v or 0.0` applied to each SUM (the sums here are never NULL,
so this is the identity; kept for fidelity). -/
def pyOr0 (v : ℚ) : ℚ := if v = 0 then 0 else v

/-- Sum of the `valor` column over a list of rows. -/
def sumValores (l : List Row) : ℚ := (l.map Row.valor).sum

/-- `totais`: SELECT tipo, SUM(valor) ... GROUP BY tipo, materialised as
the Python dict, i.e. an association list with one entry per distinct
`tipo` among the matching rows. -/
def totais (data_inicio data_fim : Option String) (db : DB) : List (String × ℚ) :=
  let ms := db.rows.filter (inRange data_inicio data_fim)
  ((ms.map Row.tipo).dedup).map
    (fun t => (t, pyOr0 (sumValores (ms.filter (fun r => r.tipo = t)))))

/-- One row of the `listar_transacoes` result: `descricao` is COALESCEd
to the empty string. -/
structure ListedRow where
  id : Nat
  data : String
  tipo : String
  valor : ℚ
  descricao : String
deriving DecidableEq, Repr

/-- `COALESCE(descricao, '')` applied to a row. -/
def coalesce (r : Row) : ListedRow :=
  ⟨r.id, r.data, r.tipo, r.valor, r.descricao.getD ""⟩

/-- The ORDER BY relation of `listar_transacoes`:
`date(data) DESC, id DESC`. -/
def listOrder (a b : ListedRow) : Prop :=
  sqlDate b.data < sqlDate a.data ∨ (sqlDate a.data = sqlDate b.data ∧ b.id ≤ a.id)

instance : DecidableRel listOrder := fun a b =>
  inferInstanceAs (Decidable (sqlDate b.data < sqlDate a.data ∨
    (sqlDate a.data = sqlDate b.data ∧ b.id ≤ a.id)))

instance : IsTotal ListedRow listOrder where
  total a b := by
    rcases lt_trichotomy (sqlDate a.data) (sqlDate b.data) with h | h | h
    · exact Or.inr (Or.inl h)
    · rcases Nat.le_total a.id b.id with hi | hi
      · exact Or.inr (Or.inr ⟨h.symm, hi⟩)
      · exact Or.inl (Or.inr ⟨h, hi⟩)
    · exact Or.inl (Or.inl h)

instance : IsTrans ListedRow listOrder where
  trans a b c hab hbc := by
    rcases hab with hab | ⟨hab1, hab2⟩ <;> rcases hbc with hbc | ⟨hbc1, hbc2⟩
    · exact Or.inl (lt_trans hbc hab)
    · exact Or.inl (lt_of_le_of_lt (le_of_eq hbc1.symm) hab)
    · exact Or.inl (lt_of_lt_of_le hbc (le_of_eq hab1.symm))
    · exact Or.inr ⟨hab1.trans hbc1, le_trans hbc2 hab2⟩

/-- `listar_transacoes`: SELECT of all rows in the optional range,
description COALESCEd, ORDER BY date(data) DESC, id DESC. -/
def listar_transacoes (data_inicio data_fim : Option String) (db : DB) : List ListedRow :=
  List.insertionSort listOrder ((db.rows.filter (inRange data_inicio data_fim)).map coalesce)

/-- The ORDER BY relation of `faturamento_por_descricao`: total DESC. -/
def totalOrder (a b : Option String × ℚ) : Prop := b.2 ≤ a.2

instance : DecidableRel totalOrder := fun a b =>
  inferInstanceAs (Decidable (b.2 ≤ a.2))

instance : IsTotal (Option String × ℚ) totalOrder where
  total a b := le_total b.2 a.2

instance : IsTrans (Option String × ℚ) totalOrder where
  trans _ _ _ hab hbc := le_trans hbc hab

/-- `faturamento_por_descricao`: SELECT descricao, SUM(valor) WHERE
tipo='faturamento' (AND the optional range) GROUP BY descricao ORDER BY
total DESC.  NULL descriptions form their own group (`none`). -/
def faturamento_por_descricao (data_inicio data_fim : Option String) (db : DB) :
    List (Option String × ℚ) :=
  let ms := db.rows.filter (fun r => r.tipo == "faturamento" && inRange data_inicio data_fim r)
  List.insertionSort totalOrder
    (((ms.map Row.descricao).dedup).map
      (fun d => (d, sumValores (ms.filter (fun r => r.descricao = d)))))

/-! ## Claims about the parser -/

/-- C1 (amended): an input sentence that matches `PADRAO` in every slot
but whose date slot is not a valid calendar date makes
`tentar_extrair_comando` raise `ValueError` (from `strptime`), rather
than return the no-match result. -/
theorem c1_invalid_date_raises (txt : String) (g : Groups)
    (hs : padraoSearch (pyStrip txt).toList = some g)
    (hv : ∃ v, pyFloat (normNum g.g1) = some v)
    (hd : strptimeDMY (normData g.g3) = none) :
    tentar_extrair_comando txt = .exn .valueError := by
  obtain ⟨v, hv⟩ := hv
  simp only [tentar_extrair_comando, hs, hv, hd]

/-- C1 counterexample: on "registre 150 de faturamento em 31/02/2024"
(all slots match, date not a calendar date) the extractor does not
return the no-match result (it raises). -/
theorem c1_counterexample :
    tentar_extrair_comando "registre 150 de faturamento em 31/02/2024" ≠
      PyResult.ok none := by decide

/-- C1 witness: the hypotheses of `c1_invalid_date_raises` hold for the
concrete sentence "registre 150 de faturamento em 31/02/2024" and the
conclusion follows there. -/
theorem c1_invalid_date_raises_witness :
    padraoSearch (pyStrip "registre 150 de faturamento em 31/02/2024").toList =
        some ⟨"150".toList, "faturamento".toList, "31/02/2024".toList, none⟩
    ∧ strptimeDMY (normData "31/02/2024".toList) = none
    ∧ tentar_extrair_comando "registre 150 de faturamento em 31/02/2024" =
        .exn .valueError :=
  ⟨by decide, by decide,
    c1_invalid_date_raises _ ⟨"150".toList, "faturamento".toList, "31/02/2024".toList, none⟩
      (by decide) ⟨_, rfl⟩ (by decide)⟩

/-- C2 counterexample: a sentence with every mandatory slot but without
the leading "registre" phrase yields the no-match result, not a
structured record. -/
theorem c2_counterexample :
    tentar_extrair_comando "150 de faturamento em 12/05/2024" = PyResult.ok none := by
  decide

/-- C2 (amended): the word "registre" is mandatory — only the
"no banco de dados" part of the leading phrase is optional.  With it or
without it the sentence parses to the same record; dropping "registre"
entirely yields no-match. -/
theorem c2_registre_mandatory :
    tentar_extrair_comando "registre 150 de faturamento em 12/05/2024" =
      .ok (some ⟨"2024-05-12", "faturamento", 150, none⟩)
    ∧ tentar_extrair_comando "registre no banco de dados 150 de faturamento em 12/05/2024" =
      .ok (some ⟨"2024-05-12", "faturamento", 150, none⟩)
    ∧ tentar_extrair_comando "150 de faturamento em 12/05/2024" = .ok none := by
  refine ⟨?_, ?_, by decide⟩
  · have h : tentar_extrair_comando "registre 150 de faturamento em 12/05/2024" =
        .ok (some ⟨"2024-05-12", "faturamento",
          ((150 : Nat) : ℚ) + ((0 : Nat) : ℚ) / (10 : ℚ) ^ 0, none⟩) := rfl
    rw [h]; norm_num
  · have h : tentar_extrair_comando
        "registre no banco de dados 150 de faturamento em 12/05/2024" =
        .ok (some ⟨"2024-05-12", "faturamento",
          ((150 : Nat) : ℚ) + ((0 : Nat) : ℚ) / (10 : ℚ) ^ 0, none⟩) := rfl
    rw [h]; norm_num

/-- C4: numeric normalization — "1.234,56" parses to 1234.56, "150" to
150, "10,5" to 10.5 in the returned record (dots removed, comma to
decimal point). -/
theorem c4_numeric_normalization :
    tentar_extrair_comando "registre 1.234,56 de faturamento em 12/05/2024" =
      .ok (some ⟨"2024-05-12", "faturamento", 1234.56, none⟩)
    ∧ tentar_extrair_comando "registre 150 de faturamento em 12/05/2024" =
      .ok (some ⟨"2024-05-12", "faturamento", 150, none⟩)
    ∧ tentar_extrair_comando "registre 10,5 de faturamento em 12/05/2024" =
      .ok (some ⟨"2024-05-12", "faturamento", 10.5, none⟩) := by
  refine ⟨?_, ?_, ?_⟩
  · have h : tentar_extrair_comando "registre 1.234,56 de faturamento em 12/05/2024" =
        .ok (some ⟨"2024-05-12", "faturamento",
          ((1234 : Nat) : ℚ) + ((56 : Nat) : ℚ) / (10 : ℚ) ^ 2, none⟩) := rfl
    rw [h]; norm_num
  · have h : tentar_extrair_comando "registre 150 de faturamento em 12/05/2024" =
        .ok (some ⟨"2024-05-12", "faturamento",
          ((150 : Nat) : ℚ) + ((0 : Nat) : ℚ) / (10 : ℚ) ^ 0, none⟩) := rfl
    rw [h]; norm_num
  · have h : tentar_extrair_comando "registre 10,5 de faturamento em 12/05/2024" =
        .ok (some ⟨"2024-05-12", "faturamento",
          ((10 : Nat) : ℚ) + ((5 : Nat) : ℚ) / (10 : ℚ) ^ 1, none⟩) := rfl
    rw [h]; norm_num

/-- C5: date normalization — "12/05/2024", "12-05-2024" and the mixed
separator variants all produce the same ISO date "2024-05-12" in the
returned record. -/
theorem c5_date_normalization :
    tentar_extrair_comando "registre 150 de faturamento em 12/05/2024" =
      .ok (some ⟨"2024-05-12", "faturamento", 150, none⟩)
    ∧ tentar_extrair_comando "registre 150 de faturamento em 12-05-2024" =
      .ok (some ⟨"2024-05-12", "faturamento", 150, none⟩)
    ∧ tentar_extrair_comando "registre 150 de faturamento em 12-05/2024" =
      .ok (some ⟨"2024-05-12", "faturamento", 150, none⟩)
    ∧ tentar_extrair_comando "registre 150 de faturamento em 12/05-2024" =
      .ok (some ⟨"2024-05-12", "faturamento", 150, none⟩) := by
  refine ⟨?_, ?_, ?_, ?_⟩
  · have h : tentar_extrair_comando "registre 150 de faturamento em 12/05/2024" =
        .ok (some ⟨"2024-05-12", "faturamento",
          ((150 : Nat) : ℚ) + ((0 : Nat) : ℚ) / (10 : ℚ) ^ 0, none⟩) := rfl
    rw [h]; norm_num
  · have h : tentar_extrair_comando "registre 150 de faturamento em 12-05-2024" =
        .ok (some ⟨"2024-05-12", "faturamento",
          ((150 : Nat) : ℚ) + ((0 : Nat) : ℚ) / (10 : ℚ) ^ 0, none⟩) := rfl
    rw [h]; norm_num
  · have h : tentar_extrair_comando "registre 150 de faturamento em 12-05/2024" =
        .ok (some ⟨"2024-05-12", "faturamento",
          ((150 : Nat) : ℚ) + ((0 : Nat) : ℚ) / (10 : ℚ) ^ 0, none⟩) := rfl
    rw [h]; norm_num
  · have h : tentar_extrair_comando "registre 150 de faturamento em 12/05-2024" =
        .ok (some ⟨"2024-05-12", "faturamento",
          ((150 : Nat) : ℚ) + ((0 : Nat) : ℚ) / (10 : ℚ) ^ 0, none⟩) := rfl
    rw [h]; norm_num

/-! ## Claims about the store -/

/-- The sums fed to Python's `v or 0.0` are rationals, on which the
coalescing is the identity. -/
theorem pyOr0_eq (v : ℚ) : pyOr0 v = v := by
  unfold pyOr0; split <;> simp_all

/-- Looking a key up in an association list built by mapping a function
over a key list. -/
theorem lookup_map_self (f : String → ℚ) (keys : List String) (t : String) :
    List.lookup t (keys.map (fun k => (k, f k))) =
      if t ∈ keys then some (f t) else none := by
  induction keys with
  | nil => rfl
  | cons k ks ih =>
    by_cases h : t = k
    · subst h
      simp [List.lookup]
    · have hbeq : (t == k) = false := beq_eq_false_iff_ne.mpr h
      simp only [List.map_cons, List.lookup, hbeq, List.mem_cons]
      simp [ih, h]

/-- C10: passing the empty string as either date bound is the same as
omitting it, in all three read operations — a falsy bound contributes
no WHERE condition. -/
theorem c10_empty_bound_is_no_bound (db : DB) (d : Option String) :
    totais (some "") d db = totais none d db
    ∧ totais d (some "") db = totais d none db
    ∧ listar_transacoes (some "") d db = listar_transacoes none d db
    ∧ listar_transacoes d (some "") db = listar_transacoes d none db
    ∧ faturamento_por_descricao (some "") d db = faturamento_por_descricao none d db
    ∧ faturamento_por_descricao d (some "") db = faturamento_por_descricao d none db :=
  ⟨rfl, rfl, rfl, rfl, rfl, rfl⟩

/-- C7: in the `totais` mapping, a kind with no row matching the range
is absent (never mapped to 0.0), and a kind with matching rows is
mapped to the sum of their amounts. -/
theorem c7_totais_grouping (db : DB) (di df : Option String) (t : String) :
    ((∀ r ∈ db.rows.filter (inRange di df), r.tipo ≠ t) →
        List.lookup t (totais di df db) = none)
    ∧ ((∃ r ∈ db.rows.filter (inRange di df), r.tipo = t) →
        List.lookup t (totais di df db) =
          some (sumValores ((db.rows.filter (inRange di df)).filter
            (fun r => r.tipo = t)))) := by
  have key : totais di df db =
      (((db.rows.filter (inRange di df)).map Row.tipo).dedup).map
        (fun t2 => (t2, pyOr0 (sumValores ((db.rows.filter (inRange di df)).filter
          (fun r => r.tipo = t2))))) := rfl
  constructor
  · intro h
    rw [key, lookup_map_self, if_neg]
    intro hmem
    rw [List.mem_dedup, List.mem_map] at hmem
    obtain ⟨r, hr, ht⟩ := hmem
    exact h r hr ht
  · rintro ⟨r, hr, ht⟩
    rw [key, lookup_map_self, if_pos, pyOr0_eq]
    rw [List.mem_dedup, List.mem_map]
    exact ⟨r, hr, ht⟩

/-- C7 witness: a store with one revenue row; "despesa" has no matching
row and is absent from `totais`. -/
theorem c7_totais_grouping_witness :
    (∀ r ∈ (DB.mk [⟨1, "2024-01-01", "faturamento", 150, none⟩] 2).rows.filter
        (inRange none none), r.tipo ≠ "despesa")
    ∧ List.lookup "despesa"
        (totais none none (DB.mk [⟨1, "2024-01-01", "faturamento", 150, none⟩] 2)) = none :=
  ⟨by decide,
   (c7_totais_grouping (DB.mk [⟨1, "2024-01-01", "faturamento", 150, none⟩] 2)
      none none "despesa").1 (by decide)⟩

/-- With no date filters every row matches. -/
theorem inRange_none_none (r : Row) : inRange none none r = true := rfl

/-- With no date filters `listar_transacoes` is a permutation of the
coalesced rows. -/
theorem listar_perm (di df : Option String) (db : DB) :
    List.Perm (listar_transacoes di df db)
      ((db.rows.filter (inRange di df)).map coalesce) :=
  List.perm_insertionSort listOrder _

/-- C3: inserting a record and then listing with no date filters shows
the record exactly once — under its fresh identifier `db.nextId` — with
all fields equal to the inserted values (description coalesced to the
empty string when absent). -/
theorem c3_insert_list_roundtrip (db : DB) (r : Registro)
    (hWF : ∀ row ∈ db.rows, row.id < db.nextId) :
    ((listar_transacoes none none (inserir r db)).countP
        (fun lr => lr.id == db.nextId) = 1)
    ∧ (∀ lr ∈ listar_transacoes none none (inserir r db), lr.id = db.nextId →
        lr.data = r.data ∧ lr.tipo = r.tipo ∧ lr.valor = r.valor ∧
          lr.descricao = r.descricao.getD "") := by
  have hfilter : (inserir r db).rows.filter (inRange none none) = (inserir r db).rows :=
    List.filter_eq_self.mpr (fun a _ => inRange_none_none a)
  have hperm : List.Perm (listar_transacoes none none (inserir r db))
      ((inserir r db).rows.map coalesce) := by
    have := listar_perm none none (inserir r db)
    rwa [hfilter] at this
  constructor
  · rw [hperm.countP_eq]
    rw [show (inserir r db).rows = db.rows ++ [⟨db.nextId, r.data, r.tipo, r.valor, r.descricao⟩]
        from rfl]
    rw [List.map_append, List.countP_append]
    have h0 : (db.rows.map coalesce).countP (fun lr => lr.id == db.nextId) = 0 := by
      rw [List.countP_eq_zero]
      intro a ha
      rw [List.mem_map] at ha
      obtain ⟨row, hrow, hco⟩ := ha
      have : a.id = row.id := by rw [← hco]; rfl
      simp only [this, beq_iff_eq]
      exact Nat.ne_of_lt (hWF row hrow)
    rw [h0]
    simp [List.countP_cons, coalesce]
  · intro lr hlr hid
    have hmem : lr ∈ (inserir r db).rows.map coalesce := hperm.mem_iff.mp hlr
    rw [List.mem_map] at hmem
    obtain ⟨row, hrow, hco⟩ := hmem
    rw [show (inserir r db).rows = db.rows ++ [⟨db.nextId, r.data, r.tipo, r.valor, r.descricao⟩]
        from rfl] at hrow
    rw [List.mem_append] at hrow
    rcases hrow with hrow | hrow
    · exfalso
      have : lr.id = row.id := by rw [← hco]; rfl
      exact absurd (this ▸ hid) (Nat.ne_of_lt (hWF row hrow))
    · rw [List.mem_singleton] at hrow
      subst hrow
      rw [← hco]
      exact ⟨rfl, rfl, rfl, rfl⟩

/-- C3 witness: the empty store and a concrete record. -/
theorem c3_insert_list_roundtrip_witness :
    (∀ row ∈ DB.empty.rows, row.id < DB.empty.nextId)
    ∧ (((listar_transacoes none none
          (inserir ⟨"2024-05-12", "faturamento", 150, none⟩ DB.empty)).countP
            (fun lr => lr.id == DB.empty.nextId) = 1)
        ∧ (∀ lr ∈ listar_transacoes none none
              (inserir ⟨"2024-05-12", "faturamento", 150, none⟩ DB.empty),
            lr.id = DB.empty.nextId →
            lr.data = "2024-05-12" ∧ lr.tipo = "faturamento" ∧ lr.valor = 150 ∧
              lr.descricao = (none : Option String).getD "")) :=
  ⟨by decide, c3_insert_list_roundtrip DB.empty ⟨"2024-05-12", "faturamento", 150, none⟩
    (by decide)⟩

/-- C6: `deletar` returns true exactly when a row with the given id
exists (and false — without raising — when none does); deleting the id
just issued by an insert returns true; after a delete no listed row
carries the deleted id. -/
theorem c6_deletar_reports_existence (db : DB) (reg_id : Nat) (r : Registro) :
    ((deletar reg_id db).2 = true ↔ ∃ row ∈ db.rows, row.id = reg_id)
    ∧ ((∀ row ∈ db.rows, row.id ≠ reg_id) → (deletar reg_id db).2 = false)
    ∧ ((deletar db.nextId (inserir r db)).2 = true)
    ∧ (∀ lr ∈ listar_transacoes none none (deletar reg_id db).1, lr.id ≠ reg_id) := by
  refine ⟨?_, ?_, ?_, ?_⟩
  · show (db.rows.any (fun row => row.id = reg_id)) = true ↔ _
    rw [List.any_eq_true]
    simp
  · intro h
    show (db.rows.any (fun row => row.id = reg_id)) = false
    rw [List.any_eq_false]
    intro row hrow
    simp [h row hrow]
  · show ((inserir r db).rows.any (fun row => row.id = db.nextId)) = true
    rw [List.any_eq_true]
    refine ⟨⟨db.nextId, r.data, r.tipo, r.valor, r.descricao⟩, ?_, by simp⟩
    exact List.mem_append_right _ (List.mem_singleton.mpr rfl)
  · intro lr hlr
    have hmem := (listar_perm none none (deletar reg_id db).1).mem_iff.mp hlr
    rw [List.mem_map] at hmem
    obtain ⟨row, hrow, hco⟩ := hmem
    rw [List.mem_filter] at hrow
    have hrow2 := hrow.1
    show lr.id ≠ reg_id
    rw [← hco]
    show row.id ≠ reg_id
    have : row ∈ db.rows.filter (fun x => x.id ≠ reg_id) := hrow2
    rw [List.mem_filter] at this
    simpa using this.2

/-- C6 witness: in a one-row store, deleting the never-issued id 999999
returns false. -/
theorem c6_deletar_reports_existence_witness :
    (∀ row ∈ (inserir ⟨"2024-05-12", "faturamento", 150, none⟩ DB.empty).rows,
        row.id ≠ 999999)
    ∧ (deletar 999999 (inserir ⟨"2024-05-12", "faturamento", 150, none⟩ DB.empty)).2 =
        false :=
  ⟨by decide,
   (c6_deletar_reports_existence (inserir ⟨"2024-05-12", "faturamento", 150, none⟩ DB.empty)
      999999 ⟨"2024-05-12", "faturamento", 150, none⟩).2.1 (by decide)⟩

/-- C8: `listar_transacoes` returns exactly the rows matching the
optional range (descriptions coalesced), ordered by date descending
with ties broken by larger id first; a row with an absent description
is listed with the empty string. -/
theorem c8_listar_ordering (db : DB) (di df : Option String)
    (hids : (db.rows.map Row.id).Nodup) :
    List.Perm (listar_transacoes di df db) ((db.rows.filter (inRange di df)).map coalesce)
    ∧ (listar_transacoes di df db).Pairwise
        (fun a b => sqlDate b.data < sqlDate a.data ∨
          (sqlDate a.data = sqlDate b.data ∧ b.id < a.id))
    ∧ (∀ (i : Nat) (dd t : String) (v : ℚ),
        (coalesce ⟨i, dd, t, v, none⟩).descricao = "") := by
  have hperm := listar_perm di df db
  refine ⟨hperm, ?_, fun i dd t v => rfl⟩
  have hsorted : (listar_transacoes di df db).Pairwise listOrder :=
    List.sorted_insertionSort listOrder _
  have hids2 : ((db.rows.filter (inRange di df)).map Row.id).Nodup :=
    hids.sublist (List.Sublist.map _ (List.filter_sublist _))
  have hmapid : ((db.rows.filter (inRange di df)).map coalesce).map ListedRow.id =
      (db.rows.filter (inRange di df)).map Row.id := by
    rw [List.map_map]; rfl
  have hout : ((listar_transacoes di df db).map ListedRow.id).Nodup := by
    refine (List.Perm.nodup_iff (List.Perm.map ListedRow.id hperm)).mpr ?_
    rw [hmapid]; exact hids2
  have hpair_ne : (listar_transacoes di df db).Pairwise (fun a b => a.id ≠ b.id) :=
    List.pairwise_map.mp hout
  refine (hsorted.and hpair_ne).imp ?_
  intro a b h
  obtain ⟨h1, hne⟩ := h
  have h2 : sqlDate b.data < sqlDate a.data ∨
      (sqlDate a.data = sqlDate b.data ∧ b.id ≤ a.id) := h1
  rcases h2 with hord | ⟨heq, hle⟩
  · exact Or.inl hord
  · exact Or.inr ⟨heq, lt_of_le_of_ne hle (Ne.symm hne)⟩

/-- C8 witness: a two-row store with equal dates and distinct ids. -/
theorem c8_listar_ordering_witness :
    ((DB.mk [⟨1, "2024-01-01", "faturamento", 1, none⟩,
        ⟨2, "2024-01-01", "despesa", 2, some "x"⟩] 3).rows.map Row.id).Nodup
    ∧ (List.Perm
        (listar_transacoes none none (DB.mk [⟨1, "2024-01-01", "faturamento", 1, none⟩,
          ⟨2, "2024-01-01", "despesa", 2, some "x"⟩] 3))
        (((DB.mk [⟨1, "2024-01-01", "faturamento", 1, none⟩,
          ⟨2, "2024-01-01", "despesa", 2, some "x"⟩] 3).rows.filter
            (inRange none none)).map coalesce)
      ∧ (listar_transacoes none none (DB.mk [⟨1, "2024-01-01", "faturamento", 1, none⟩,
          ⟨2, "2024-01-01", "despesa", 2, some "x"⟩] 3)).Pairwise
          (fun a b => sqlDate b.data < sqlDate a.data ∨
            (sqlDate a.data = sqlDate b.data ∧ b.id < a.id))
      ∧ (∀ (i : Nat) (dd t : String) (v : ℚ),
          (coalesce ⟨i, dd, t, v, none⟩).descricao = "")) :=
  ⟨by decide,
   c8_listar_ordering (DB.mk [⟨1, "2024-01-01", "faturamento", 1, none⟩,
      ⟨2, "2024-01-01", "despesa", 2, some "x"⟩] 3) none none (by decide)⟩

/-- C9: `faturamento_por_descricao` groups revenue rows (only) by
description, each group mapped to the sum of its amounts, sorted by
total descending; on the spec's concrete scenario it returns
[("A", 150)]. -/
theorem c9_faturamento_por_descricao (db : DB) (di df : Option String) :
    (faturamento_por_descricao di df db).Pairwise (fun a b => b.2 ≤ a.2)
    ∧ (∀ (d : Option String) (v : ℚ),
        (d, v) ∈ faturamento_por_descricao di df db ↔
          ((∃ r ∈ db.rows.filter
              (fun r => r.tipo == "faturamento" && inRange di df r), r.descricao = d)
            ∧ v = sumValores ((db.rows.filter
                (fun r => r.tipo == "faturamento" && inRange di df r)).filter
                  (fun r => r.descricao = d))))
    ∧ faturamento_por_descricao none none
        (inserir ⟨"2024-01-01", "despesa", 30, none⟩
          (inserir ⟨"2024-01-02", "faturamento", 50, some "A"⟩
            (inserir ⟨"2024-01-01", "faturamento", 100, some "A"⟩ DB.empty))) =
        [(some "A", 150)] := by
  have key : faturamento_por_descricao di df db =
      List.insertionSort totalOrder
        ((((db.rows.filter (fun r => r.tipo == "faturamento" && inRange di df r)).map
            Row.descricao).dedup).map
          (fun d => (d, sumValores ((db.rows.filter
            (fun r => r.tipo == "faturamento" && inRange di df r)).filter
              (fun r => r.descricao = d))))) := rfl
  refine ⟨?_, ?_, ?_⟩
  · have h := List.sorted_insertionSort totalOrder
      ((((db.rows.filter (fun r => r.tipo == "faturamento" && inRange di df r)).map
          Row.descricao).dedup).map
        (fun d => (d, sumValores ((db.rows.filter
          (fun r => r.tipo == "faturamento" && inRange di df r)).filter
            (fun r => r.descricao = d)))))
    rw [key]
    exact h
  · intro d v
    rw [key, (List.perm_insertionSort totalOrder _).mem_iff, List.mem_map]
    constructor
    · rintro ⟨k, hk, heq⟩
      rw [Prod.mk.injEq] at heq
      obtain ⟨hkd, hkv⟩ := heq
      subst hkd
      rw [List.mem_dedup, List.mem_map] at hk
      obtain ⟨r, hr, hrd⟩ := hk
      exact ⟨⟨r, hr, hrd⟩, hkv.symm⟩
    · rintro ⟨⟨r, hr, hrd⟩, hv⟩
      refine ⟨d, ?_, by rw [hv]⟩
      rw [List.mem_dedup, List.mem_map]
      exact ⟨r, hr, hrd⟩
  · simp +decide [faturamento_por_descricao, inserir, DB.empty, inRange, sumValores]
    norm_num
